import Mathlib

/-
Verification of the rule-execution and result-aggregation engine of the
egon-validation-standalone repository.

The Python sources are shallowly embedded as executable Lean definitions:

* `ValidationResult`        from src/core/validation_result.py
  (the `timestamp` field, wall-clock time, is outside the model;
  `detailed_context : Dict[str, Any]` becomes a type parameter `γ`,
  since the framework never inspects its shape).
* `BaseValidationRule.create_success_result` / `create_failure_result`
  from src/rules/base_rule.py (Python's default argument
  `status="CRITICAL_FAILURE"` is passed explicitly at call sites; every
  call site in the repository uses the default).
* `BatchValidationRule.validate` from src/rules/formal/batch_validation_rule.py.
  The abstract `_validate_single_column` (a subclass-provided SQL check) is
  modelled as a function `check : ItemConfig → Except String α` whose
  `.error e` case stands for a raised exception with message `e`; the
  framework reads only the `"status"` key of the returned dict, so the rest
  of the dict is kept opaque as `α` together with an accessor
  `statusOf : α → String`.  Acquiring the shared connection
  (`db_manager.connection_context()`) is modelled as `conn : Except String Unit`.
  Python's `KeyError` on a missing `"table"`/`"column"` key is modelled as
  `Except.error "table"` / `Except.error "column"`.
  Logging calls write to stdout only and are not modelled here.
* `ValidationOrchestrator.run_all_validations` / `run_specific_validations`
  from src/core/validation_orchestrator.py.  A registered rule is a pair of
  its registration name and the outcome of `rule_class(db_manager)` followed
  by `.validate(config)`: `.error e` stands for an exception raised during
  instantiation or invocation (both live inside the same `try`), `.ok (vt, res)`
  for a normal return, where `vt` is the instance's `rule_name` attribute
  (stored as `validation_type`).  The orchestrator also performs console and
  logger I/O outside the per-rule `try` (for instance
  `self.logger.log_validation_start`, which is a bare `print`, runs before the
  loop); such I/O can raise in Python, so it is modelled as a fallible effect
  `log : Except String Unit`.
* `EtragoElectricitySanityRule.validate` from
  src/rules/sanity/etrago_electricity_sanity_rule.py.  The three SQL-bound
  sub-validators (`_validate_generators`, `_validate_storage`,
  `_validate_loads`) are external database calls; their combined outcome is an
  input `Except String (List String × List String × List String)` carrying the
  `"status"` values of the produced per-item dicts (the aggregation logic in
  `validate` reads only those), `.error` standing for an exception raised
  inside the outer `try`.  The Python float `tolerance` is carried as `Rat`;
  it is stored in the context and never used arithmetically in `validate`.
* `ValidationMonitor.analyze_validation_coverage` from
  src/core/validation_monitor.py.  The discovered schema snapshot
  (`self.discovered_tables`) and the declared `"comprehensive"` configuration
  are inputs; Python float percentages are modelled as `Rat`; the
  presentational `analysis_timestamp` and per-item `validation_details`
  fields are outside the model.
-/

namespace Egon

/-- Record of one rule invocation, from the dataclass in
src/core/validation_result.py.  `γ` is the shape of `detailed_context`. -/
structure ValidationResult (γ : Type) where
  rule_name : String
  status : String
  table : String
  function_name : String
  module_name : String
  message : Option String
  error_details : Option String
  detailed_context : Option γ
deriving DecidableEq

namespace BaseValidationRule

/-- Helper `_create_success_result(table, message)` of src/rules/base_rule.py. -/
def create_success_result {γ : Type} (rule_name module_name table message : String) :
    ValidationResult γ :=
  { rule_name := rule_name
    status := "SUCCESS"
    table := table
    function_name := "validate"
    module_name := module_name
    message := some message
    error_details := none
    detailed_context := none }

/-- Helper `_create_failure_result(table, error_details, status)` of
src/rules/base_rule.py; `status` defaults to `"CRITICAL_FAILURE"` in Python
and is passed explicitly here. -/
def create_failure_result {γ : Type} (rule_name module_name table error_details status : String) :
    ValidationResult γ :=
  { rule_name := rule_name
    status := status
    table := table
    function_name := "validate"
    module_name := module_name
    message := none
    error_details := some error_details
    detailed_context := none }

end BaseValidationRule

namespace BatchValidationRule

/-- One element of `table_column_configs` in
`BatchValidationRule.validate`: a dict whose `"table"`/`"column"` keys may be
absent (`none`), plus the remaining check-specific string entries, which the
framework forwards to the check unchanged. -/
structure ItemConfig where
  table : Option String
  column : Option String
  extra : List (String × String)
deriving DecidableEq

/-- One element of the `all_results` list built by the per-item loop: either
the dict returned by `_validate_single_column` (opaque, `fromCheck`), or the
`error_result` dict the framework builds in the per-item `except` branch
(`execError table column error`). -/
inductive ItemEntry (α : Type) where
  | fromCheck (r : α)
  | execError (table column error : String)
deriving DecidableEq

/-- The `"status"` value of an `all_results` entry: the check result's own
status, or the literal `"FAILED"` the framework stores in its error dict. -/
def entry_status {α : Type} (statusOf : α → String) : ItemEntry α → String
  | .fromCheck r => statusOf r
  | .execError _ _ _ => "FAILED"

/-- The `detailed_context` dict of the aggregate result built at the end of
`BatchValidationRule.validate`. -/
structure BatchContext (α : Type) where
  total_validations : Nat
  passed : Nat
  failed : Nat
  failed_tables : List String
  summary : List (String × String)
  detailed_results : List (ItemEntry α)
deriving DecidableEq

/-- Python `dict` assignment `d[k] = v` on an insertion-ordered association
list: overwrite in place when the key exists, append otherwise. -/
def dict_insert (d : List (String × String)) (k v : String) : List (String × String) :=
  if d.any (fun p => p.1 == k) then d.map (fun p => if p.1 == k then (k, v) else p)
  else d ++ [(k, v)]

/-- The per-item loop of `BatchValidationRule.validate`.  Produces, in loop
order, the `all_results` entries, `failed_count`, `failed_tables`, and the
sequence of `summary[key] = status` assignment events.  Reading a missing
`"table"`/`"column"` key happens before the per-item `try`, so it aborts the
loop (`.error`), while a failing check is converted into an `execError` entry
and the loop continues. -/
def run_items {α : Type} (check : ItemConfig → Except String α) (statusOf : α → String) :
    List ItemConfig →
      Except String (List (ItemEntry α) × Nat × List String × List (String × String))
  | [] => Except.ok ([], 0, [], [])
  | c :: rest => do
    let t ← match c.table with
      | some t => Except.ok t
      | none => Except.error "table"
    let col ← match c.column with
      | some col => Except.ok col
      | none => Except.error "column"
    let key := t ++ "." ++ col
    let (entry, fails, ftabs, stat) :=
      match check c with
      | .ok r =>
          (ItemEntry.fromCheck r,
           if statusOf r == "SUCCESS" then 0 else 1,
           if statusOf r == "SUCCESS" then [] else [key],
           statusOf r)
      | .error e => (ItemEntry.execError t col e, 1, [key], "FAILED")
    let (entries, fc, fts, evs) ← run_items check statusOf rest
    Except.ok (entry :: entries, fails + fc, ftabs ++ fts, (key, stat) :: evs)

/-- `BatchValidationRule.validate(table_column_configs)` from
src/rules/formal/batch_validation_rule.py.  `conn` models
`db_manager.connection_context()`; the outer `except` catches both a failed
connection acquisition and a `KeyError` escaping the per-item loop, returning
`_create_failure_result("multiple_tables", ...)`. -/
def validate {α : Type} (rule_name module_name : String) (conn : Except String Unit)
    (check : ItemConfig → Except String α) (statusOf : α → String)
    (configs : List ItemConfig) : ValidationResult (BatchContext α) :=
  let total_count := configs.length
  match (do
    let _ ← conn
    run_items check statusOf configs) with
  | .error e =>
      BaseValidationRule.create_failure_result rule_name module_name "multiple_tables"
        ("Batch validation execution failed: " ++ e) "CRITICAL_FAILURE"
  | .ok (all_results, failed_count, failed_tables, events) =>
      let summary := events.foldl (fun d kv => dict_insert d kv.1 kv.2) []
      let passed_count := total_count - failed_count
      let ctx : BatchContext α :=
        { total_validations := total_count
          passed := passed_count
          failed := failed_count
          failed_tables := failed_tables
          summary := summary
          detailed_results := all_results }
      if failed_count > 0 then
        { rule_name := rule_name
          status := "CRITICAL_FAILURE"
          table := "multiple_tables"
          function_name := "validate"
          module_name := module_name
          message := none
          error_details := some (toString failed_count ++ " of " ++ toString total_count
            ++ " validations failed: " ++ String.intercalate ", " failed_tables)
          detailed_context := some ctx }
      else
        { rule_name := rule_name
          status := "SUCCESS"
          table := "multiple_tables"
          function_name := "validate"
          module_name := module_name
          message := some ("All " ++ toString total_count ++ " validations passed")
          error_details := none
          detailed_context := some ctx }

/-- The `all_results` entry the loop records for a well-formed item config
with keys `t`/`col`: the check's dict, or the framework's error dict when the
check raises. -/
def item_entry_for {α : Type} (check : ItemConfig → Except String α) (t col : String)
    (c : ItemConfig) : ItemEntry α :=
  match check c with
  | .ok r => ItemEntry.fromCheck r
  | .error e => ItemEntry.execError t col e

/-- The `all_results` entry for an item config, reading the keys from the
config itself (unused default for malformed configs, which never reach this
point in a completed loop). -/
def entry_of {α : Type} (check : ItemConfig → Except String α) (c : ItemConfig) : ItemEntry α :=
  match c.table, c.column with
  | some t, some col => item_entry_for check t col c
  | _, _ => ItemEntry.execError "" "" ""

/-- The `f"{table}.{column}"` key of an item config. -/
def key_of (c : ItemConfig) : String := c.table.getD "" ++ "." ++ c.column.getD ""

/-- Whether the loop counts an item as failed: its recorded entry has a
status other than `"SUCCESS"` (a check raising counts, since its entry
carries `"FAILED"`). -/
def is_failed {α : Type} (statusOf : α → String) (check : ItemConfig → Except String α)
    (c : ItemConfig) : Bool :=
  entry_status statusOf (entry_of check c) != "SUCCESS"

/-- When every item config carries both keys, the loop completes and its four
accumulators are pointwise images of the config list. -/
theorem run_items_eq {α : Type} (check : ItemConfig → Except String α) (statusOf : α → String)
    (configs : List ItemConfig) (h : ∀ c ∈ configs, c.table ≠ none ∧ c.column ≠ none) :
    run_items check statusOf configs = Except.ok
      (configs.map (entry_of check),
       configs.countP (is_failed statusOf check),
       (configs.filter (is_failed statusOf check)).map key_of,
       configs.map (fun c => (key_of c, entry_status statusOf (entry_of check c)))) := by
  induction configs with
  | nil => rfl
  | cons c rest ih =>
    obtain ⟨ht, hc⟩ := h c (List.mem_cons_self c rest)
    obtain ⟨t, ht'⟩ := Option.ne_none_iff_exists'.mp ht
    obtain ⟨col, hc'⟩ := Option.ne_none_iff_exists'.mp hc
    have ih' := ih (fun x hx => h x (List.mem_cons_of_mem c hx))
    simp only [run_items, ht', hc', ih', Bind.bind, Except.bind, List.map_cons,
      List.countP_cons, List.filter_cons, is_failed, entry_of, item_entry_for, key_of,
      entry_status, Option.getD_some]
    cases hchk : check c with
    | ok r =>
      by_cases hs : statusOf r = "SUCCESS" <;>
        simp [hchk, hs, entry_status, key_of, ht', hc', Nat.add_comm]
    | error e =>
      simp [hchk, entry_status, key_of, ht', hc', Nat.add_comm]

/-- If some item config lacks the `"table"` or `"column"` key, the loop
aborts with the corresponding `KeyError`, no matter where the malformed item
sits in the sequence. -/
theorem run_items_error_of_malformed {α : Type} (check : ItemConfig → Except String α)
    (statusOf : α → String) (configs : List ItemConfig)
    (h : ∃ c ∈ configs, c.table = none ∨ c.column = none) :
    ∃ e, run_items check statusOf configs = Except.error e := by
  induction configs with
  | nil => simp at h
  | cons c rest ih =>
    rcases h with ⟨c', hmem, hbad⟩
    rcases List.mem_cons.mp hmem with rfl | hmem'
    · cases htab : c'.table with
      | none => exact ⟨"table", by simp [run_items, htab, Bind.bind, Except.bind]⟩
      | some t =>
        rcases hbad with hbad | hbad
        · exact absurd htab (by simp [hbad])
        · exact ⟨"column", by simp [run_items, htab, hbad, Bind.bind, Except.bind]⟩
    · cases htab : c.table with
      | none => exact ⟨"table", by simp [run_items, htab, Bind.bind, Except.bind]⟩
      | some t =>
        cases hcol : c.column with
        | none => exact ⟨"column", by simp [run_items, htab, hcol, Bind.bind, Except.bind]⟩
        | some col =>
          obtain ⟨e, herr⟩ := ih ⟨c', hmem', hbad⟩
          refine ⟨e, ?_⟩
          cases hchk : check c <;>
            simp [run_items, htab, hcol, hchk, herr, Bind.bind, Except.bind]

/-- Value of `validate` when the connection is acquired and every item config
carries both keys: the aggregation stage is reached and builds the summary
result from the loop's accumulators. -/
theorem validate_of_keys {α : Type} (rule_name module_name : String)
    (check : ItemConfig → Except String α) (statusOf : α → String)
    (configs : List ItemConfig) (hkeys : ∀ c ∈ configs, c.table ≠ none ∧ c.column ≠ none) :
    validate rule_name module_name (Except.ok ()) check statusOf configs =
      (let fc := configs.countP (is_failed statusOf check)
       let ftabs := (configs.filter (is_failed statusOf check)).map key_of
       let ctx : BatchContext α :=
        { total_validations := configs.length
          passed := configs.length - fc
          failed := fc
          failed_tables := ftabs
          summary := (configs.map (fun c => (key_of c, entry_status statusOf (entry_of check c)))).foldl
            (fun d kv => dict_insert d kv.1 kv.2) []
          detailed_results := configs.map (entry_of check) }
       if fc > 0 then
        { rule_name := rule_name
          status := "CRITICAL_FAILURE"
          table := "multiple_tables"
          function_name := "validate"
          module_name := module_name
          message := none
          error_details := some (toString fc ++ " of " ++ toString configs.length
            ++ " validations failed: " ++ String.intercalate ", " ftabs)
          detailed_context := some ctx }
       else
        { rule_name := rule_name
          status := "SUCCESS"
          table := "multiple_tables"
          function_name := "validate"
          module_name := module_name
          message := some ("All " ++ toString configs.length ++ " validations passed")
          error_details := none
          detailed_context := some ctx }) := by
  have hrun := run_items_eq check statusOf configs hkeys
  simp only [validate, Bind.bind, Except.bind, hrun]

end BatchValidationRule

namespace ValidationOrchestrator

/-- One registration of `self.validation_rules` paired with what executing it
does: `.error e` models an exception raised while instantiating `rule_class`
or invoking `validate` (both inside the per-rule `try`), `.ok (vt, res)` a
normal return, `vt` being the instance's `rule_name` attribute. -/
abbrev RuleEntry (γ : Type) := String × Except String (String × ValidationResult γ)

/-- The synthetic `ValidationResult` built in the per-rule `except` branch of
`run_all_validations`. -/
def error_result {γ : Type} (rule_name e : String) : ValidationResult γ :=
  { rule_name := rule_name
    status := "CRITICAL_FAILURE"
    table := "unknown"
    function_name := "run_all_validations"
    module_name := "src.core.validation_orchestrator"
    message := none
    error_details := some ("Rule execution failed: " ++ e)
    detailed_context := none }

/-- One element of `self.results`: the `enhanced_result` dict
(`timestamp` is outside the model). -/
structure EnhancedResult (γ : Type) where
  rule_name : String
  validation_type : String
  result : ValidationResult γ
  execution_error : Option String
deriving DecidableEq

/-- The per-rule loop of `run_all_validations`: accumulates `self.results`,
`passed_rules` and `failed_rules` in registration order. -/
def run_loop {γ : Type} : List (RuleEntry γ) →
    List (EnhancedResult γ) × List String × List String
  | [] => ([], [], [])
  | r :: rest =>
    let (es, ps, fs) := run_loop rest
    match r.2 with
    | .ok (vt, res) =>
        if res.status == "SUCCESS" then
          ({ rule_name := r.1, validation_type := vt, result := res,
             execution_error := none } :: es, r.1 :: ps, fs)
        else
          ({ rule_name := r.1, validation_type := vt, result := res,
             execution_error := none } :: es, ps, r.1 :: fs)
    | .error e =>
        ({ rule_name := r.1, validation_type := "unknown", result := error_result r.1 e,
           execution_error := some e } :: es, ps, r.1 :: fs)

/-- The run report of `run_all_validations` (`timestamp` and
`duration_seconds`, wall-clock values, are outside the model). -/
structure RunReport (γ : Type) where
  overall_status : String
  total_rules : Nat
  passed_rules : Nat
  failed_rules : Nat
  passed_rule_names : List String
  failed_rule_names : List String
  detailed_results : List (EnhancedResult γ)
deriving DecidableEq

/-- `ValidationOrchestrator.run_all_validations` from
src/core/validation_orchestrator.py, for a given registration list. -/
def run_all_validations {γ : Type} (rules : List (RuleEntry γ)) : RunReport γ :=
  let total_rules := rules.length
  let x := run_loop rules
  { overall_status := if x.2.2.length == 0 then "SUCCESS" else "CRITICAL_FAILURE"
    total_rules := total_rules
    passed_rules := x.2.1.length
    failed_rules := x.2.2.length
    passed_rule_names := x.2.1
    failed_rule_names := x.2.2
    detailed_results := x.1 }

/-- `run_all_validations` together with the console/logger I/O it performs
outside the per-rule `try` (for instance `log_validation_start`, a bare
`print` executed before the loop), modelled as the fallible effect `log`: if
that I/O raises, the exception escapes `run_all_validations`. -/
def run_all_validations_logged {γ : Type} (log : Except String Unit)
    (rules : List (RuleEntry γ)) : Except String (RunReport γ) :=
  match log with
  | .error e => Except.error e
  | .ok _ => Except.ok (run_all_validations rules)

/-- `ValidationOrchestrator.run_specific_validations(rule_names)` from
src/core/validation_orchestrator.py.  Returns the call's outcome together
with the final value of `self.validation_rules`.  The source copies the
registrations, overwrites them with the filtered subset, runs, and restores
with a plain assignment placed after the run — there is no `try`/`finally`,
so when the run raises, the restoring assignment is skipped and the filtered
subset persists. -/
def run_specific_validations {γ : Type} (log : Except String Unit)
    (validation_rules : List (RuleEntry γ)) (rule_names : List String) :
    Except String (RunReport γ) × List (RuleEntry γ) :=
  let original_rules := validation_rules
  let filtered := original_rules.filter (fun r => rule_names.contains r.1)
  match run_all_validations_logged log filtered with
  | .ok report => (Except.ok report, original_rules)
  | .error e => (Except.error e, filtered)

/-- The `self.results` entry recorded for one registration. -/
def enhanced_for {γ : Type} (r : RuleEntry γ) : EnhancedResult γ :=
  match r.2 with
  | .ok (vt, res) =>
      { rule_name := r.1, validation_type := vt, result := res, execution_error := none }
  | .error e =>
      { rule_name := r.1, validation_type := "unknown", result := error_result r.1 e,
        execution_error := some e }

/-- The status the run effectively attributes to one registration: the
returned result's status, or `"CRITICAL_FAILURE"` for the synthetic result of
a raising rule. -/
def effective_status {γ : Type} (r : RuleEntry γ) : String :=
  match r.2 with
  | .ok (_, res) => res.status
  | .error _ => "CRITICAL_FAILURE"

/-- The contribution of one registration to `passed_rules`. -/
def passed_name {γ : Type} (r : RuleEntry γ) : Option String :=
  match r.2 with
  | .ok (_, res) => if res.status == "SUCCESS" then some r.1 else none
  | .error _ => none

/-- The contribution of one registration to `failed_rules`. -/
def failed_name {γ : Type} (r : RuleEntry γ) : Option String :=
  match r.2 with
  | .ok (_, res) => if res.status == "SUCCESS" then none else some r.1
  | .error _ => some r.1

/-- The loop's three accumulators are pointwise images of the registration
list. -/
theorem run_loop_eq {γ : Type} (rules : List (RuleEntry γ)) :
    run_loop rules = (rules.map enhanced_for, rules.filterMap passed_name,
      rules.filterMap failed_name) := by
  induction rules with
  | nil => rfl
  | cons r rest ih =>
    obtain ⟨name, outcome⟩ := r
    cases outcome with
    | ok p =>
      obtain ⟨vt, res⟩ := p
      by_cases hs : res.status = "SUCCESS" <;>
        simp [run_loop, ih, enhanced_for, passed_name, failed_name, hs]
    | error e =>
      simp [run_loop, ih, enhanced_for, passed_name, failed_name]

/-- Every recorded result keeps its registration name, on both the normal and
the exceptional path. -/
theorem enhanced_for_rule_name {γ : Type} (r : RuleEntry γ) :
    (enhanced_for r).rule_name = r.1 := by
  obtain ⟨name, outcome⟩ := r
  cases outcome with
  | ok p =>
    obtain ⟨vt, res⟩ := p
    simp [enhanced_for]
  | error e => simp [enhanced_for]

/-- Each registration lands in exactly one of `passed_rules`/`failed_rules`. -/
theorem length_passed_add_failed {γ : Type} (rules : List (RuleEntry γ)) :
    (rules.filterMap passed_name).length + (rules.filterMap failed_name).length
      = rules.length := by
  induction rules with
  | nil => rfl
  | cons r rest ih =>
    obtain ⟨name, outcome⟩ := r
    cases outcome with
    | ok p =>
      obtain ⟨vt, res⟩ := p
      by_cases hs : res.status = "SUCCESS" <;>
        (simp [passed_name, failed_name, hs]; omega)
    | error e =>
      simp [passed_name, failed_name]
      omega

/-- Closed form of the run report in terms of the registration list. -/
theorem run_all_validations_eq {γ : Type} (rules : List (RuleEntry γ)) :
    run_all_validations rules =
      { overall_status :=
          if (rules.filterMap failed_name).length == 0 then "SUCCESS" else "CRITICAL_FAILURE"
        total_rules := rules.length
        passed_rules := (rules.filterMap passed_name).length
        failed_rules := (rules.filterMap failed_name).length
        passed_rule_names := rules.filterMap passed_name
        failed_rule_names := rules.filterMap failed_name
        detailed_results := rules.map enhanced_for } := by
  simp only [run_all_validations, run_loop_eq]

/-- `failed_rules` counts exactly the registrations whose effective status is
not `SUCCESS`. -/
theorem length_failed_eq_countP {γ : Type} (rules : List (RuleEntry γ)) :
    (rules.filterMap failed_name).length
      = rules.countP (fun r => effective_status r != "SUCCESS") := by
  induction rules with
  | nil => rfl
  | cons r rest ih =>
    obtain ⟨name, outcome⟩ := r
    cases outcome with
    | ok p =>
      obtain ⟨vt, res⟩ := p
      by_cases hs : res.status = "SUCCESS" <;>
        simp [passed_name, failed_name, effective_status, hs, List.countP_cons, ih]
    | error e =>
      simp [failed_name, effective_status, List.countP_cons, ih]

end ValidationOrchestrator

namespace EtragoElectricitySanityRule

/-- The `summary` sub-dict of the rule's `detailed_context`. -/
structure Summary where
  total_validations : Nat
  passed : Nat
  warnings : Nat
  critical_failures : Nat
deriving DecidableEq

/-- The `detailed_context` dict built by
`EtragoElectricitySanityRule.validate`; the per-item result dicts are
represented by their `"status"` values, the only field the aggregation
reads. -/
structure Context where
  scenario : String
  tolerance_percent : Rat
  generator_results : List String
  storage_results : List String
  load_results : List String
  summary : Summary
deriving DecidableEq

/-- `EtragoElectricitySanityRule.validate(config)` from
src/rules/sanity/etrago_electricity_sanity_rule.py, its three SQL-bound
sub-validators abstracted as the `sub_results` input (statuses of the
generator, storage and load result dicts; `.error` for an exception raised
inside the outer `try`).  Note the `message` f-string is assigned
unconditionally, for failing statuses as well. -/
def validate (rule_name module_name scenario : String) (tolerance : Rat)
    (sub_results : Except String (List String × List String × List String)) :
    ValidationResult Context :=
  match sub_results with
  | .error e =>
      BaseValidationRule.create_failure_result rule_name module_name "grid.egon_etrago_*"
        ("Sanity check execution failed: " ++ e) "CRITICAL_FAILURE"
  | .ok (generator_results, storage_results, load_results) =>
      let all_results := generator_results ++ storage_results ++ load_results
      let critical_failures := all_results.filter (fun st => st == "CRITICAL_FAILURE")
      let warnings := all_results.filter (fun st => st == "WARNING")
      let (status, error_details) :=
        if !critical_failures.isEmpty then
          ("CRITICAL_FAILURE",
           some ("Found " ++ toString critical_failures.length
             ++ " critical failures in electricity sanity check"))
        else if !warnings.isEmpty then
          ("WARNING",
           some ("Found " ++ toString warnings.length
             ++ " warnings in electricity sanity check"))
        else ("SUCCESS", (none : Option String))
      let passed := (all_results.filter (fun st => st == "SUCCESS")).length
      let ctx : Context :=
        { scenario := scenario
          tolerance_percent := tolerance
          generator_results := generator_results
          storage_results := storage_results
          load_results := load_results
          summary := { total_validations := all_results.length, passed := passed,
                       warnings := warnings.length,
                       critical_failures := critical_failures.length } }
      { rule_name := rule_name
        status := status
        table := "grid.egon_etrago_generator,grid.egon_etrago_storage,grid.egon_etrago_load"
        function_name := "validate"
        module_name := module_name
        message := some ("Electricity sanity check completed for " ++ scenario ++ ": "
          ++ toString passed ++ "/" ++ toString all_results.length ++ " validations passed")
        error_details := error_details
        detailed_context := some ctx }

end EtragoElectricitySanityRule

namespace ValidationMonitor

/-- Snapshot of one discovered table, from the `TableInfo` dataclass in
src/core/validation_monitor.py. -/
structure TableInfo where
  schema : String
  table : String
  column_count : Nat
  columns : List String
  estimated_row_count : Int
deriving DecidableEq

/-- The `config` payload of one declared rule: the coverage walk only
processes payloads that are lists of item dicts (each read at its `"table"`
and `"column"` keys, here a pair); any other payload shape is skipped by the
`isinstance(..., list)` guard. -/
inductive RuleConfigPayload where
  | items (l : List (String × String))
  | other
deriving DecidableEq

/-- One entry of the declared `"comprehensive"` configuration's rule list. -/
structure RuleDef where
  name : String
  rule_class : String
  config : RuleConfigPayload
deriving DecidableEq

/-- Python `dict`/`set` insertion of one element: keep the list unchanged
when the element is already a member, append it otherwise. -/
def insert_once {β : Type} [DecidableEq β] (acc : List β) (x : β) : List β :=
  if x ∈ acc then acc else acc ++ [x]

/-- The `f"{table}.{column}"` string under which `validation_by_table_column`
stores one declared item.  The joining is not injective: distinct pairs can
collide on the same key. -/
def joined_key (tc : String × String) : String := tc.1 ++ "." ++ tc.2

/-- One `validation_by_table_column[key]` insertion: the dict is keyed by the
joined `f"{table}.{column}"` string, and only a key's first occurrence
creates an entry (`if key not in validation_by_table_column`; later hits only
extend that entry's sets), so each entry keeps the first occurrence's `table`
and `column` fields. -/
def entry_step (acc : List (String × String × String)) (tc : String × String) :
    List (String × String × String) :=
  if joined_key tc ∈ acc.map (fun p => p.1) then acc
  else acc ++ [(joined_key tc, tc.1, tc.2)]

/-- The entries of `validation_by_table_column` in key insertion order, as
`(key, table, column)` triples: one entry per distinct joined string key
over all items of the list-shaped rule configs. -/
def coverage_entries (rules : List RuleDef) : List (String × String × String) :=
  rules.foldl
    (fun acc r =>
      match r.config with
      | .items l => l.foldl entry_step acc
      | .other => acc)
    []

/-- First-occurrence deduplication of a list (Python `dict`/`set` insertion
semantics). -/
def dedup_first {β : Type} [DecidableEq β] (l : List β) : List β :=
  l.foldl insert_once []

/-- The coverage statistics dict returned by `analyze_validation_coverage`
(`analysis_timestamp` and the presentational `validation_details` /
sorted-name lists are outside the model; the two `_list` fields keep
first-occurrence order where the source sorts them). -/
structure CoverageStats where
  total_discovered_tables : Nat
  covered_tables : Nat
  uncovered_tables : Nat
  total_columns : Nat
  covered_columns : Nat
  coverage_percentage : Rat
  covered_table_list : List String
  uncovered_table_list : List String
deriving DecidableEq

/-- `ValidationMonitor.analyze_validation_coverage()` from
src/core/validation_monitor.py: raises `ValueError` when nothing has been
discovered, otherwise cross-references the discovered tables with the
`(table, column)` pairs declared by the configuration's rules. -/
def analyze_validation_coverage (discovered_tables : List TableInfo)
    (rules : List RuleDef) : Except String CoverageStats :=
  if discovered_tables.isEmpty then
    Except.error "No tables discovered. Run discover_database_structure() first."
  else
    let entries := coverage_entries rules
    let covered_tables := dedup_first (entries.map (fun p => p.2.1))
    let total_discovered := dedup_first (discovered_tables.map (fun t => t.table))
    let uncovered := total_discovered.filter (fun t => !covered_tables.contains t)
    let total_columns := (discovered_tables.map (fun t => t.column_count)).sum
    let covered_columns := entries.length
    Except.ok
      { total_discovered_tables := total_discovered.length
        covered_tables := covered_tables.length
        uncovered_tables := uncovered.length
        total_columns := total_columns
        covered_columns := covered_columns
        coverage_percentage :=
          if total_columns > 0 then (covered_columns : Rat) / (total_columns : Rat) * 100 else 0
        covered_table_list := covered_tables
        uncovered_table_list := uncovered }

/-- All `(table, column)` pairs referenced by the declared rules'
list-shaped configs, in declaration order, duplicates included. -/
def declared_pairs (rules : List RuleDef) : List (String × String) :=
  (rules.map (fun r =>
    match r.config with
    | .items l => l
    | .other => [])).flatten

/-- Membership in the first-occurrence insertion fold. -/
theorem mem_foldl_insert {β : Type} [DecidableEq β] (l acc : List β) (x : β) :
    x ∈ l.foldl insert_once acc ↔ x ∈ acc ∨ x ∈ l := by
  induction l generalizing acc with
  | nil => simp
  | cons y ys ih =>
    simp only [List.foldl_cons]
    rw [ih]
    unfold insert_once
    by_cases hy : y ∈ acc
    · simp only [if_pos hy, List.mem_cons]
      constructor
      · rintro (h | h)
        · exact Or.inl h
        · exact Or.inr (Or.inr h)
      · rintro (h | h | h)
        · exact Or.inl h
        · exact Or.inl (h ▸ hy)
        · exact Or.inr h
    · simp only [if_neg hy, List.mem_append, List.mem_cons, List.mem_singleton]
      tauto

/-- The first-occurrence insertion fold preserves freedom from duplicates. -/
theorem nodup_foldl_insert {β : Type} [DecidableEq β] (l : List β) :
    ∀ acc : List β, acc.Nodup → (l.foldl insert_once acc).Nodup := by
  induction l with
  | nil => intro acc h; simpa using h
  | cons y ys ih =>
    intro acc h
    simp only [List.foldl_cons]
    apply ih
    unfold insert_once
    by_cases hy : y ∈ acc
    · rw [if_pos hy]
      exact h
    · rw [if_neg hy]
      simp [List.nodup_append, h, hy]

/-- The key component of one dict insertion is string insertion of the
joined key. -/
theorem map_fst_entry_step (acc : List (String × String × String)) (tc : String × String) :
    (entry_step acc tc).map (fun p => p.1)
      = insert_once (acc.map (fun p => p.1)) (joined_key tc) := by
  unfold entry_step insert_once
  by_cases h : joined_key tc ∈ acc.map (fun p => p.1) <;> simp [h]

/-- The key components of a run of dict insertions are the string insertions
of the items' joined keys. -/
theorem map_fst_foldl_entry_step (l : List (String × String)) :
    ∀ acc : List (String × String × String),
      (l.foldl entry_step acc).map (fun p => p.1)
        = (l.map joined_key).foldl insert_once (acc.map (fun p => p.1)) := by
  induction l with
  | nil => intro acc; rfl
  | cons tc rest ih =>
    intro acc
    simp only [List.foldl_cons, List.map_cons, ih, map_fst_entry_step]

/-- The keys accumulated by `validation_by_table_column` are the joined
`f"{table}.{column}"` strings of the declared items, deduplicated in
first-occurrence order. -/
theorem coverage_entries_keys (rules : List RuleDef) :
    (coverage_entries rules).map (fun p => p.1)
      = dedup_first ((declared_pairs rules).map joined_key) := by
  suffices h : ∀ (rs : List RuleDef) (acc : List (String × String × String)),
      (rs.foldl
        (fun acc r =>
          match r.config with
          | .items l => l.foldl entry_step acc
          | .other => acc)
        acc).map (fun p => p.1)
      = ((declared_pairs rs).map joined_key).foldl insert_once (acc.map (fun p => p.1)) by
    unfold coverage_entries dedup_first
    simpa using h rules []
  intro rs
  induction rs with
  | nil => intro acc; rfl
  | cons r rest ih =>
    intro acc
    cases hc : r.config with
    | items l =>
      simp only [List.foldl_cons, hc, declared_pairs, List.map_cons, List.flatten_cons,
        List.map_append, List.foldl_append, ih, map_fst_foldl_entry_step]
    | other =>
      simp only [List.foldl_cons, hc, declared_pairs, List.map_cons, List.flatten_cons,
        List.map_nil, List.nil_append, ih]

/-- The deduplicated list counts exactly the distinct elements. -/
theorem length_dedup_first_eq_card {β : Type} [DecidableEq β] (l : List β) :
    (dedup_first l).length = l.toFinset.card := by
  have hnd : (dedup_first l).Nodup := nodup_foldl_insert l [] List.nodup_nil
  have hfs : (dedup_first l).toFinset = l.toFinset := by
    ext x
    simp only [List.mem_toFinset, dedup_first, mem_foldl_insert, List.not_mem_nil,
      false_or]
  rw [← hfs, List.toFinset_card_of_nodup hnd]

end ValidationMonitor

/-! Concrete fixtures used by the witness theorems.  `demo_configs` is a
two-item batch config for tables `t1.c1` and `t2.c2`; the two demo checks
make the second item raise (`demo_check_raise`) or report a `FAILED` dict
(`demo_check_failed`), with `α := String` carrying just the per-item status
and `statusOf := id`. -/

/-- Two well-formed item configs, `t1.c1` and `t2.c2`. -/
def demo_configs : List BatchValidationRule.ItemConfig :=
  [{ table := some "t1", column := some "c1", extra := [] },
   { table := some "t2", column := some "c2", extra := [] }]

/-- A check that raises on `t2.c2` and passes elsewhere. -/
def demo_check_raise : BatchValidationRule.ItemConfig → Except String String := fun c =>
  if c.column == some "c2" then Except.error "relation t2 does not exist"
  else Except.ok "SUCCESS"

/-- A check that returns a `FAILED` per-item dict on `t2.c2` (for instance a
null check reporting `null_count=5`) and passes elsewhere. -/
def demo_check_failed : BatchValidationRule.ItemConfig → Except String String := fun c =>
  if c.column == some "c2" then Except.ok "FAILED"
  else Except.ok "SUCCESS"

/-- Two registered orchestrator rules: the first runs and passes, the second
raises while executing. -/
def demo_rules : List (ValidationOrchestrator.RuleEntry Unit) :=
  [("load_null_check", Except.ok ("null_check",
      BaseValidationRule.create_success_result "null_check"
        "src.rules.formal.null_check_rule" "demand.egon_demandregio_hh"
        "All 1 validations passed")),
   ("broken_rule", Except.error "division by zero")]

/-- C1: per-item failure isolation in `BatchValidationRule.validate` — when
the check raises for item `k` of a batch of well-keyed items, the exception
is not propagated: the aggregate result carries a `detailed_context` whose
`detailed_results` has exactly one entry per item, `total_validations` equals
the batch size, `failed` counts exactly the non-`SUCCESS` entries (item `k`'s
entry among them, recorded as the framework's `FAILED` error dict), and
`failed_tables` contains item `k`'s `table.column` key. -/
theorem C1_per_item_isolation (α : Type) (rule_name module_name : String)
    (check : BatchValidationRule.ItemConfig → Except String α) (statusOf : α → String)
    (configs : List BatchValidationRule.ItemConfig) (k : Fin configs.length)
    (hkeys : ∀ c ∈ configs, c.table ≠ none ∧ c.column ≠ none)
    (t col e : String)
    (ht : (configs.get k).table = some t) (hcol : (configs.get k).column = some col)
    (hraise : check (configs.get k) = Except.error e) :
    ∃ ctx : BatchValidationRule.BatchContext α,
      (BatchValidationRule.validate rule_name module_name (Except.ok ()) check statusOf
        configs).detailed_context = some ctx ∧
      ctx.detailed_results.length = configs.length ∧
      ctx.total_validations = configs.length ∧
      ctx.failed = ctx.detailed_results.countP
        (fun en => BatchValidationRule.entry_status statusOf en != "SUCCESS") ∧
      0 < ctx.failed ∧
      (∃ hlen : k.val < ctx.detailed_results.length,
        ctx.detailed_results.get ⟨k.val, hlen⟩ =
          BatchValidationRule.ItemEntry.execError t col e) ∧
      (t ++ "." ++ col) ∈ ctx.failed_tables := by
  simp only [List.get_eq_getElem] at ht hcol hraise
  have hfail : BatchValidationRule.is_failed statusOf check (configs.get k) = true := by
    simp [BatchValidationRule.is_failed, BatchValidationRule.entry_of, ht, hcol,
      BatchValidationRule.item_entry_for, hraise, BatchValidationRule.entry_status]
  have hpos : 0 < configs.countP (BatchValidationRule.is_failed statusOf check) :=
    List.countP_pos_iff.mpr ⟨configs.get k, List.get_mem configs k.1 k.2, hfail⟩
  rw [BatchValidationRule.validate_of_keys rule_name module_name check statusOf configs hkeys]
  simp only [if_pos hpos]
  refine ⟨_, rfl, by simp, rfl, ?_, ?_, ?_, ?_⟩
  · simp only [List.countP_map]
    rfl
  · exact hpos
  · refine ⟨by simp, ?_⟩
    simp only [List.get_eq_getElem, List.getElem_map]
    simp [BatchValidationRule.entry_of, ht, hcol, BatchValidationRule.item_entry_for, hraise]
  · refine List.mem_map.mpr
      ⟨configs.get k, List.mem_filter.mpr ⟨List.get_mem configs k.1 k.2, hfail⟩, ?_⟩
    simp [BatchValidationRule.key_of, ht, hcol]

/-- Witness for C1 at the two-item fixture batch whose second item's check
raises. -/
theorem C1_witness :
    ∃ ctx : BatchValidationRule.BatchContext String,
      (BatchValidationRule.validate "null_check" "src.rules.formal.null_check_rule"
        (Except.ok ()) demo_check_raise id demo_configs).detailed_context = some ctx ∧
      ctx.detailed_results.length = demo_configs.length ∧
      ctx.total_validations = demo_configs.length ∧
      ctx.failed = ctx.detailed_results.countP
        (fun en => BatchValidationRule.entry_status id en != "SUCCESS") ∧
      0 < ctx.failed ∧
      (∃ hlen : 1 < ctx.detailed_results.length,
        ctx.detailed_results.get ⟨1, hlen⟩ =
          BatchValidationRule.ItemEntry.execError "t2" "c2" "relation t2 does not exist") ∧
      ("t2" ++ "." ++ "c2") ∈ ctx.failed_tables :=
  C1_per_item_isolation String "null_check" "src.rules.formal.null_check_rule"
    demo_check_raise id demo_configs ⟨1, by decide⟩ (by decide)
    "t2" "c2" "relation t2 does not exist" rfl rfl rfl

/-- C4: batch status derivation — when the aggregation stage is reached, the
status is `SUCCESS` exactly when no item failed; otherwise the status is
`CRITICAL_FAILURE` and `error_details` is the failed count, `" of "`, the
total count, `" validations failed: "` and the comma-separated failed
`table.column` keys. -/
theorem C4_batch_status_derivation (α : Type) (rule_name module_name : String)
    (check : BatchValidationRule.ItemConfig → Except String α) (statusOf : α → String)
    (configs : List BatchValidationRule.ItemConfig)
    (hkeys : ∀ c ∈ configs, c.table ≠ none ∧ c.column ≠ none) :
    ((BatchValidationRule.validate rule_name module_name (Except.ok ()) check statusOf
        configs).status = "SUCCESS"
      ↔ configs.countP (BatchValidationRule.is_failed statusOf check) = 0) ∧
    (0 < configs.countP (BatchValidationRule.is_failed statusOf check) →
      (BatchValidationRule.validate rule_name module_name (Except.ok ()) check statusOf
        configs).status = "CRITICAL_FAILURE" ∧
      (BatchValidationRule.validate rule_name module_name (Except.ok ()) check statusOf
        configs).error_details =
        some (toString (configs.countP (BatchValidationRule.is_failed statusOf check))
          ++ " of " ++ toString configs.length ++ " validations failed: "
          ++ String.intercalate ", "
            ((configs.filter (BatchValidationRule.is_failed statusOf check)).map
              BatchValidationRule.key_of))) := by
  rw [BatchValidationRule.validate_of_keys rule_name module_name check statusOf configs hkeys]
  by_cases hfc : configs.countP (BatchValidationRule.is_failed statusOf check) = 0
  · simp [hfc]
  · have hpos : 0 < configs.countP (BatchValidationRule.is_failed statusOf check) :=
      Nat.pos_of_ne_zero hfc
    simp [hpos, hfc]

/-- Witness for C4 at the two-item fixture batch whose second item reports a
`FAILED` dict: one failure out of two, key `t2.c2`. -/
theorem C4_witness :
    0 < demo_configs.countP (BatchValidationRule.is_failed id demo_check_failed) ∧
    (BatchValidationRule.validate "null_check" "src.rules.formal.null_check_rule"
      (Except.ok ()) demo_check_failed id demo_configs).status = "CRITICAL_FAILURE" ∧
    (BatchValidationRule.validate "null_check" "src.rules.formal.null_check_rule"
      (Except.ok ()) demo_check_failed id demo_configs).error_details =
      some "1 of 2 validations failed: t2.c2" := by
  have h := (C4_batch_status_derivation String "null_check" "src.rules.formal.null_check_rule"
    demo_check_failed id demo_configs (by decide)).2 (by decide)
  exact ⟨by decide, h.1, by rw [h.2]; rfl⟩

/-- C6: batch-level versus per-item failure — a failed connection acquisition
yields the `_create_failure_result` value: `CRITICAL_FAILURE`, table
`multiple_tables`, and no `detailed_context`; a per-item failure instead
yields a result whose `detailed_context` is present with `failed > 0`, so a
consumer can tell the two apart by the presence of `detailed_context`. -/
theorem C6_batch_failure_distinguishable (α : Type) (rule_name module_name : String)
    (conn : Except String Unit) (check : BatchValidationRule.ItemConfig → Except String α)
    (statusOf : α → String) (configs : List BatchValidationRule.ItemConfig) :
    (∀ e, conn = Except.error e →
      BatchValidationRule.validate rule_name module_name conn check statusOf configs =
        BaseValidationRule.create_failure_result rule_name module_name "multiple_tables"
          ("Batch validation execution failed: " ++ e) "CRITICAL_FAILURE" ∧
      (BatchValidationRule.validate rule_name module_name conn check statusOf
        configs).status = "CRITICAL_FAILURE" ∧
      (BatchValidationRule.validate rule_name module_name conn check statusOf
        configs).table = "multiple_tables" ∧
      (BatchValidationRule.validate rule_name module_name conn check statusOf
        configs).detailed_context = none) ∧
    ((∀ c ∈ configs, c.table ≠ none ∧ c.column ≠ none) →
      0 < configs.countP (BatchValidationRule.is_failed statusOf check) →
      ∃ ctx : BatchValidationRule.BatchContext α,
        (BatchValidationRule.validate rule_name module_name (Except.ok ()) check statusOf
          configs).detailed_context = some ctx ∧ 0 < ctx.failed) := by
  constructor
  · rintro e rfl
    refine ⟨?_, ?_⟩
    · simp [BatchValidationRule.validate, Bind.bind, Except.bind]
    · simp [BatchValidationRule.validate, Bind.bind, Except.bind,
        BaseValidationRule.create_failure_result]
  · intro hkeys hpos
    rw [BatchValidationRule.validate_of_keys rule_name module_name check statusOf configs hkeys]
    simp only [if_pos hpos]
    exact ⟨_, rfl, hpos⟩

/-- Witness for C6: a refused connection gives the context-free batch-level
failure, while the fixture batch with a per-item failure carries a context
with `failed > 0`. -/
theorem C6_witness :
    (BatchValidationRule.validate "null_check" "src.rules.formal.null_check_rule"
      (Except.error "connection refused") demo_check_failed id demo_configs =
        BaseValidationRule.create_failure_result "null_check"
          "src.rules.formal.null_check_rule" "multiple_tables"
          ("Batch validation execution failed: " ++ "connection refused")
          "CRITICAL_FAILURE" ∧
      (BatchValidationRule.validate "null_check" "src.rules.formal.null_check_rule"
        (Except.error "connection refused") demo_check_failed id
        demo_configs).status = "CRITICAL_FAILURE" ∧
      (BatchValidationRule.validate "null_check" "src.rules.formal.null_check_rule"
        (Except.error "connection refused") demo_check_failed id
        demo_configs).table = "multiple_tables" ∧
      (BatchValidationRule.validate "null_check" "src.rules.formal.null_check_rule"
        (Except.error "connection refused") demo_check_failed id
        demo_configs).detailed_context = none) ∧
    (∃ ctx : BatchValidationRule.BatchContext String,
      (BatchValidationRule.validate "null_check" "src.rules.formal.null_check_rule"
        (Except.ok ()) demo_check_failed id demo_configs).detailed_context = some ctx ∧
      0 < ctx.failed) :=
  ⟨(C6_batch_failure_distinguishable String "null_check" "src.rules.formal.null_check_rule"
      (Except.error "connection refused") demo_check_failed id demo_configs).1
      "connection refused" rfl,
   (C6_batch_failure_distinguishable String "null_check" "src.rules.formal.null_check_rule"
      (Except.error "connection refused") demo_check_failed id demo_configs).2
      (by decide) (by decide)⟩

/-- C10: a missing `"table"`/`"column"` key is read before the per-item
exception handler, so one malformed item aborts the whole batch: the result
is the batch-level failure (`CRITICAL_FAILURE`, table `multiple_tables`, no
`detailed_context`, hence no per-item entries for any item, earlier items
included). -/
theorem C10_malformed_item_aborts_batch (α : Type) (rule_name module_name : String)
    (check : BatchValidationRule.ItemConfig → Except String α) (statusOf : α → String)
    (configs : List BatchValidationRule.ItemConfig)
    (hbad : ∃ c ∈ configs, c.table = none ∨ c.column = none) :
    (BatchValidationRule.validate rule_name module_name (Except.ok ()) check statusOf
      configs).status = "CRITICAL_FAILURE" ∧
    (BatchValidationRule.validate rule_name module_name (Except.ok ()) check statusOf
      configs).table = "multiple_tables" ∧
    (BatchValidationRule.validate rule_name module_name (Except.ok ()) check statusOf
      configs).detailed_context = none ∧
    ∃ e, (BatchValidationRule.validate rule_name module_name (Except.ok ()) check statusOf
      configs).error_details = some ("Batch validation execution failed: " ++ e) := by
  obtain ⟨e, herr⟩ := BatchValidationRule.run_items_error_of_malformed check statusOf configs hbad
  refine ⟨?_, ?_, ?_, e, ?_⟩ <;>
    simp [BatchValidationRule.validate, Bind.bind, Except.bind, herr,
      BaseValidationRule.create_failure_result]

/-- Witness for C10: a two-item batch whose second item lacks the `"column"`
key aborts wholesale, dropping the well-formed first item as well. -/
theorem C10_witness :
    (BatchValidationRule.validate "null_check" "src.rules.formal.null_check_rule"
      (Except.ok ()) demo_check_failed id
      [{ table := some "t1", column := some "c1", extra := [] },
       { table := some "t2", column := none, extra := [] }]).status = "CRITICAL_FAILURE" ∧
    (BatchValidationRule.validate "null_check" "src.rules.formal.null_check_rule"
      (Except.ok ()) demo_check_failed id
      [{ table := some "t1", column := some "c1", extra := [] },
       { table := some "t2", column := none, extra := [] }]).table = "multiple_tables" ∧
    (BatchValidationRule.validate "null_check" "src.rules.formal.null_check_rule"
      (Except.ok ()) demo_check_failed id
      [{ table := some "t1", column := some "c1", extra := [] },
       { table := some "t2", column := none, extra := [] }]).detailed_context = none ∧
    ∃ e, (BatchValidationRule.validate "null_check" "src.rules.formal.null_check_rule"
      (Except.ok ()) demo_check_failed id
      [{ table := some "t1", column := some "c1", extra := [] },
       { table := some "t2", column := none, extra := [] }]).error_details =
        some ("Batch validation execution failed: " ++ e) :=
  C10_malformed_item_aborts_batch String "null_check" "src.rules.formal.null_check_rule"
    demo_check_failed id
    [{ table := some "t1", column := some "c1", extra := [] },
     { table := some "t2", column := none, extra := [] }]
    (by decide)

/-- C2: per-rule failure isolation in
`ValidationOrchestrator.run_all_validations` — when executing registration `j`
raises (during instantiation or invocation), the run still produces one
`detailed_results` entry per registration (each keeping its registration
name), rule `j`'s entry is the synthetic `CRITICAL_FAILURE` result tagged
with table `unknown`, `failed_rule_names` includes rule `j`, and
`passed_rules + failed_rules = total_rules = M`. -/
theorem C2_per_rule_isolation (γ : Type) (rules : List (ValidationOrchestrator.RuleEntry γ))
    (j : Fin rules.length) (e : String)
    (hraise : (rules.get j).2 = Except.error e) :
    (ValidationOrchestrator.run_all_validations rules).detailed_results.length
      = rules.length ∧
    (ValidationOrchestrator.run_all_validations rules).total_rules = rules.length ∧
    (ValidationOrchestrator.run_all_validations rules).passed_rules
      + (ValidationOrchestrator.run_all_validations rules).failed_rules = rules.length ∧
    (rules.get j).1 ∈ (ValidationOrchestrator.run_all_validations rules).failed_rule_names ∧
    (∃ hlen : j.val < (ValidationOrchestrator.run_all_validations rules).detailed_results.length,
      (ValidationOrchestrator.run_all_validations rules).detailed_results.get ⟨j.val, hlen⟩ =
        { rule_name := (rules.get j).1
          validation_type := "unknown"
          result := ValidationOrchestrator.error_result (rules.get j).1 e
          execution_error := some e } ∧
      ((ValidationOrchestrator.run_all_validations rules).detailed_results.get
        ⟨j.val, hlen⟩).result.status = "CRITICAL_FAILURE" ∧
      ((ValidationOrchestrator.run_all_validations rules).detailed_results.get
        ⟨j.val, hlen⟩).result.table = "unknown") ∧
    (∀ i : Fin rules.length,
      ∃ hlen : i.val < (ValidationOrchestrator.run_all_validations rules).detailed_results.length,
        ((ValidationOrchestrator.run_all_validations rules).detailed_results.get
          ⟨i.val, hlen⟩).rule_name = (rules.get i).1) := by
  simp only [List.get_eq_getElem] at hraise
  rw [ValidationOrchestrator.run_all_validations_eq]
  refine ⟨by simp, rfl, ?_, ?_, ?_, ?_⟩
  · exact ValidationOrchestrator.length_passed_add_failed rules
  · refine List.mem_filterMap.mpr ⟨rules.get j, List.get_mem rules j.1 j.2, ?_⟩
    simp [ValidationOrchestrator.failed_name, hraise]
  · refine ⟨by simp, ?_, ?_, ?_⟩
    · simp only [List.get_eq_getElem, List.getElem_map]
      simp [ValidationOrchestrator.enhanced_for, hraise]
    · simp only [List.get_eq_getElem, List.getElem_map]
      simp [ValidationOrchestrator.enhanced_for, hraise,
        ValidationOrchestrator.error_result]
    · simp only [List.get_eq_getElem, List.getElem_map]
      simp [ValidationOrchestrator.enhanced_for, hraise,
        ValidationOrchestrator.error_result]
  · intro i
    refine ⟨by simp, ?_⟩
    simp only [List.get_eq_getElem, List.getElem_map]
    exact ValidationOrchestrator.enhanced_for_rule_name (rules.get i)

/-- Witness for C2: two registered rules, the first returning a passing
result and the second raising. -/
theorem C2_witness :
    (ValidationOrchestrator.run_all_validations demo_rules).detailed_results.length
      = demo_rules.length ∧
    (ValidationOrchestrator.run_all_validations demo_rules).total_rules = demo_rules.length ∧
    (ValidationOrchestrator.run_all_validations demo_rules).passed_rules
      + (ValidationOrchestrator.run_all_validations demo_rules).failed_rules
      = demo_rules.length ∧
    (demo_rules.get ⟨1, by decide⟩).1
      ∈ (ValidationOrchestrator.run_all_validations demo_rules).failed_rule_names ∧
    (∃ hlen : 1 < (ValidationOrchestrator.run_all_validations demo_rules).detailed_results.length,
      (ValidationOrchestrator.run_all_validations demo_rules).detailed_results.get ⟨1, hlen⟩ =
        { rule_name := (demo_rules.get ⟨1, by decide⟩).1,
          validation_type := "unknown",
          result := ValidationOrchestrator.error_result (demo_rules.get ⟨1, by decide⟩).1
            "division by zero",
          execution_error := some "division by zero" } ∧
      ((ValidationOrchestrator.run_all_validations demo_rules).detailed_results.get
        ⟨1, hlen⟩).result.status = "CRITICAL_FAILURE" ∧
      ((ValidationOrchestrator.run_all_validations demo_rules).detailed_results.get
        ⟨1, hlen⟩).result.table = "unknown") ∧
    (∀ i : Fin demo_rules.length,
      ∃ hlen : i.val < (ValidationOrchestrator.run_all_validations demo_rules).detailed_results.length,
        ((ValidationOrchestrator.run_all_validations demo_rules).detailed_results.get
          ⟨i.val, hlen⟩).rule_name = (demo_rules.get i).1) :=
  C2_per_rule_isolation Unit demo_rules ⟨1, by decide⟩ "division by zero" rfl

/-- C5: run status derivation — `overall_status` is `SUCCESS` exactly when
`failed_rules` is `0`, and `failed_rules` counts precisely the registrations
whose effective result status is not `SUCCESS` (so a `WARNING` outcome fails
the rule and hence the run). -/
theorem C5_run_status_derivation (γ : Type)
    (rules : List (ValidationOrchestrator.RuleEntry γ)) :
    ((ValidationOrchestrator.run_all_validations rules).overall_status = "SUCCESS"
      ↔ (ValidationOrchestrator.run_all_validations rules).failed_rules = 0) ∧
    (ValidationOrchestrator.run_all_validations rules).failed_rules
      = rules.countP (fun r => ValidationOrchestrator.effective_status r != "SUCCESS") := by
  constructor
  · simp only [ValidationOrchestrator.run_all_validations]
    by_cases h : (ValidationOrchestrator.run_loop rules).2.2.length = 0 <;> simp [h]
  · simp only [ValidationOrchestrator.run_all_validations, ValidationOrchestrator.run_loop_eq]
    exact ValidationOrchestrator.length_failed_eq_countP rules

/-- C9: vacuous run — zero registered rules (directly, or through
`run_specific_validations` with names matching nothing) produce a report with
`total_rules = 0`, empty name lists, and `overall_status` `SUCCESS`. -/
theorem C9_vacuous_run_succeeds :
    ValidationOrchestrator.run_all_validations
        ([] : List (ValidationOrchestrator.RuleEntry Unit)) =
      { overall_status := "SUCCESS", total_rules := 0, passed_rules := 0, failed_rules := 0,
        passed_rule_names := [], failed_rule_names := [], detailed_results := [] } ∧
    ∀ (rules : List (ValidationOrchestrator.RuleEntry Unit)) (names : List String),
      (∀ r ∈ rules, r.1 ∉ names) →
      ValidationOrchestrator.run_specific_validations (Except.ok ()) rules names =
        (Except.ok { overall_status := "SUCCESS", total_rules := 0, passed_rules := 0,
                     failed_rules := 0, passed_rule_names := [], failed_rule_names := [],
                     detailed_results := [] }, rules) := by
  refine ⟨rfl, ?_⟩
  intro rules names hnone
  have hfilter : rules.filter (fun r => names.contains r.1) = [] := by
    refine List.filter_eq_nil_iff.mpr ?_
    intro r hr
    simpa using hnone r hr
  have hstep : ValidationOrchestrator.run_specific_validations (Except.ok ()) rules names =
      (Except.ok (ValidationOrchestrator.run_all_validations
        (rules.filter (fun r => names.contains r.1))), rules) := rfl
  rw [hstep, hfilter]
  rfl

/-- Witness for C9: one registered rule, requested names matching nothing. -/
theorem C9_witness :
    ValidationOrchestrator.run_specific_validations (Except.ok ()) demo_rules
        ["no_such_rule"] =
      (Except.ok { overall_status := "SUCCESS", total_rules := 0, passed_rules := 0,
                   failed_rules := 0, passed_rule_names := [], failed_rule_names := [],
                   detailed_results := [] }, demo_rules) :=
  C9_vacuous_run_succeeds.2 demo_rules ["no_such_rule"] (by decide)

/-- C7 counterexample: when the underlying run raises (here the console
logging at the top of `run_all_validations` fails), the registration set is
left as the filtered subset — the empty set — instead of the original
one-rule registration, so restoration does not survive an exception. -/
theorem C7_counterexample :
    (ValidationOrchestrator.run_specific_validations (Except.error "stdout closed")
        demo_rules []).2 ≠ demo_rules := by
  intro h
  have : ([] : List (ValidationOrchestrator.RuleEntry Unit)) = demo_rules := h
  simp [demo_rules] at this

/-- C7 (amended): `run_specific_validations` restores the persisted
registration set when the filtered run returns normally; when the run raises,
the exception propagates and the registration set is left as the filtered
subset (the restoring assignment follows the run with no `try`/`finally`). -/
theorem C7_registration_restoration (γ : Type) (log : Except String Unit)
    (rules : List (ValidationOrchestrator.RuleEntry γ)) (names : List String) :
    (log = Except.ok () →
      ValidationOrchestrator.run_specific_validations log rules names =
        (Except.ok (ValidationOrchestrator.run_all_validations
          (rules.filter (fun r => names.contains r.1))), rules)) ∧
    (∀ e, log = Except.error e →
      ValidationOrchestrator.run_specific_validations log rules names =
        (Except.error e, rules.filter (fun r => names.contains r.1))) := by
  constructor
  · rintro rfl
    rfl
  · rintro e rfl
    rfl

/-- Witness for C7 (amended), at a normal run and at a raising run. -/
theorem C7_witness :
    ValidationOrchestrator.run_specific_validations (Except.ok ()) demo_rules
        ["load_null_check"] =
      (Except.ok (ValidationOrchestrator.run_all_validations
        (demo_rules.filter (fun r => ["load_null_check"].contains r.1))), demo_rules) ∧
    ValidationOrchestrator.run_specific_validations (Except.error "stdout closed") demo_rules
        ["load_null_check"] =
      (Except.error "stdout closed",
       demo_rules.filter (fun r => ["load_null_check"].contains r.1)) :=
  ⟨(C7_registration_restoration Unit (Except.ok ()) demo_rules ["load_null_check"]).1 rfl,
   (C7_registration_restoration Unit (Except.error "stdout closed") demo_rules
     ["load_null_check"]).2 "stdout closed" rfl⟩

/-- The claim's full mutual-exclusivity property on one result: success-like
results carry a message and no error details, failure-like results carry
error details, and the two fields are never both populated. -/
def mutually_exclusive_claim {γ : Type} (r : ValidationResult γ) : Prop :=
  (r.status = "SUCCESS" → r.message ≠ none ∧ r.error_details = none) ∧
  ((r.status = "WARNING" ∨ r.status = "CRITICAL_FAILURE") → r.error_details ≠ none) ∧
  ¬(r.message ≠ none ∧ r.error_details ≠ none)

/-- The part of the claim the code does satisfy: field population is
determined by the status, without the "never both" clause. -/
def status_fields_invariant {γ : Type} (r : ValidationResult γ) : Prop :=
  (r.status = "SUCCESS" → r.message ≠ none ∧ r.error_details = none) ∧
  ((r.status = "WARNING" ∨ r.status = "CRITICAL_FAILURE") → r.error_details ≠ none)

/-- C3 counterexample: a WARNING outcome of
`EtragoElectricitySanityRule.validate` (one sub-validation reporting
`WARNING`) carries both a non-null `message` — the unconditionally assigned
completion f-string — and non-null `error_details`, refuting the "never both
meaningfully populated" clause. -/
theorem C3_counterexample :
    ¬ mutually_exclusive_claim
      (EtragoElectricitySanityRule.validate "etrago_electricity_sanity"
        "src.rules.sanity.etrago_electricity_sanity_rule" "eGon2035" 5
        (Except.ok (["WARNING"], [], []))) := by
  unfold mutually_exclusive_claim
  decide

/-- C3 (amended): every result built by the base-rule helpers (the failure
helper with a failure-like status, as at every call site in the repository),
by `BatchValidationRule.validate`, by the orchestrator's synthetic error
result, and by `EtragoElectricitySanityRule.validate` satisfies: status
`SUCCESS` implies non-null `message` and null `error_details`, and status
`WARNING` or `CRITICAL_FAILURE` implies non-null `error_details`.  The
original claim's "never both populated" clause fails for the sanity rule,
whose failing results also carry a `message` (see the counterexample). -/
theorem C3_status_determines_fields :
    (∀ rule_name module_name table message : String,
      status_fields_invariant
        (BaseValidationRule.create_success_result rule_name module_name table message
          : ValidationResult Unit)) ∧
    (∀ rule_name module_name table error_details st : String,
      st = "WARNING" ∨ st = "CRITICAL_FAILURE" →
      status_fields_invariant
        (BaseValidationRule.create_failure_result rule_name module_name table error_details st
          : ValidationResult Unit)) ∧
    (∀ (α : Type) (rule_name module_name : String) (conn : Except String Unit)
      (check : BatchValidationRule.ItemConfig → Except String α) (statusOf : α → String)
      (configs : List BatchValidationRule.ItemConfig),
      status_fields_invariant
        (BatchValidationRule.validate rule_name module_name conn check statusOf configs)) ∧
    (∀ rule_name e : String,
      status_fields_invariant
        (ValidationOrchestrator.error_result rule_name e : ValidationResult Unit)) ∧
    (∀ (rule_name module_name scenario : String) (tolerance : Rat)
      (sub_results : Except String (List String × List String × List String)),
      status_fields_invariant
        (EtragoElectricitySanityRule.validate rule_name module_name scenario tolerance
          sub_results)) := by
  refine ⟨?_, ?_, ?_, ?_, ?_⟩
  · intro rule_name module_name table message
    simp [status_fields_invariant, BaseValidationRule.create_success_result]
  · rintro rule_name module_name table error_details st (rfl | rfl) <;>
      simp [status_fields_invariant, BaseValidationRule.create_failure_result]
  · intro α rule_name module_name conn check statusOf configs
    cases conn with
    | error e =>
      simp [status_fields_invariant, BatchValidationRule.validate, Bind.bind, Except.bind,
        BaseValidationRule.create_failure_result]
    | ok u =>
      cases hri : BatchValidationRule.run_items check statusOf configs with
      | error e =>
        simp [status_fields_invariant, BatchValidationRule.validate, Bind.bind, Except.bind,
          hri, BaseValidationRule.create_failure_result]
      | ok quad =>
        obtain ⟨entries, fc, fts, evs⟩ := quad
        by_cases hfc : fc > 0 <;>
          simp [status_fields_invariant, BatchValidationRule.validate, Bind.bind, Except.bind,
            hri, hfc]
  · intro rule_name e
    simp [status_fields_invariant, ValidationOrchestrator.error_result]
  · intro rule_name module_name scenario tolerance sub_results
    cases sub_results with
    | error e =>
      simp [status_fields_invariant, EtragoElectricitySanityRule.validate,
        BaseValidationRule.create_failure_result]
    | ok triple =>
      obtain ⟨g, s, l⟩ := triple
      simp only [status_fields_invariant, EtragoElectricitySanityRule.validate]
      split
      · simp
      · split
        · simp
        · simp

/-- Witness for C3 (amended) at concrete results of each constructor. -/
theorem C3_witness :
    status_fields_invariant
      (BaseValidationRule.create_success_result "null_check"
        "src.rules.formal.null_check_rule" "demand.egon_demandregio_hh" "All good"
        : ValidationResult Unit) ∧
    status_fields_invariant
      (BaseValidationRule.create_failure_result "null_check"
        "src.rules.formal.null_check_rule" "demand.egon_demandregio_hh" "5 NULL values"
        "CRITICAL_FAILURE" : ValidationResult Unit) ∧
    status_fields_invariant
      (BatchValidationRule.validate "null_check" "src.rules.formal.null_check_rule"
        (Except.ok ()) demo_check_failed id demo_configs) ∧
    status_fields_invariant
      (ValidationOrchestrator.error_result "broken_rule" "division by zero"
        : ValidationResult Unit) ∧
    status_fields_invariant
      (EtragoElectricitySanityRule.validate "etrago_electricity_sanity"
        "src.rules.sanity.etrago_electricity_sanity_rule" "eGon2035" 5
        (Except.ok (["WARNING"], [], []))) :=
  ⟨C3_status_determines_fields.1 "null_check" "src.rules.formal.null_check_rule"
      "demand.egon_demandregio_hh" "All good",
   C3_status_determines_fields.2.1 "null_check" "src.rules.formal.null_check_rule"
      "demand.egon_demandregio_hh" "5 NULL values" "CRITICAL_FAILURE" (Or.inr rfl),
   C3_status_determines_fields.2.2.1 String "null_check" "src.rules.formal.null_check_rule"
      (Except.ok ()) demo_check_failed id demo_configs,
   C3_status_determines_fields.2.2.2.1 "broken_rule" "division by zero",
   C3_status_determines_fields.2.2.2.2 "etrago_electricity_sanity"
      "src.rules.sanity.etrago_electricity_sanity_rule" "eGon2035" 5
      (Except.ok (["WARNING"], [], []))⟩

/-- C8 counterexample: `validation_by_table_column` is keyed by the joined
`f"{table}.{column}"` string, which is not injective on `(table, column)`
pairs — the two distinct declared pairs `("a", "b.c")` and `("a.b", "c")`
collide on the key `a.b.c`, so the program computes `covered_columns = 1`
while the number of distinct declared pairs is `2`, refuting the claim's
"number of distinct (table, column) pairs" clause. -/
theorem C8_counterexample :
    ∃ stats : ValidationMonitor.CoverageStats,
      ValidationMonitor.analyze_validation_coverage
          [{ schema := "s", table := "s.t1", column_count := 4,
             columns := ["c1", "c2", "c3", "c4"], estimated_row_count := 0 }]
          [{ name := "r1", rule_class := "NullCheckRule",
             config := ValidationMonitor.RuleConfigPayload.items
               [("a", "b.c"), ("a.b", "c")] }] =
        Except.ok stats ∧
      stats.covered_columns = 1 ∧
      (ValidationMonitor.declared_pairs
          [{ name := "r1", rule_class := "NullCheckRule",
             config := ValidationMonitor.RuleConfigPayload.items
               [("a", "b.c"), ("a.b", "c")] }]).toFinset.card = 2 ∧
      stats.covered_columns ≠
        (ValidationMonitor.declared_pairs
          [{ name := "r1", rule_class := "NullCheckRule",
             config := ValidationMonitor.RuleConfigPayload.items
               [("a", "b.c"), ("a.b", "c")] }]).toFinset.card := by
  refine ⟨_, rfl, by decide, by decide, by decide⟩

/-- C8 (amended): coverage percentage formula and division guard — on a
non-empty discovered snapshot, `analyze_validation_coverage` succeeds with
`total_columns` the sum of discovered column counts, `covered_columns` the
number of distinct joined `f"{table}.{column}"` key strings over the items
referenced by the declared rules (which equals the number of distinct
`(table, column)` pairs except when distinct pairs collide on the joined
string, as in the counterexample), and
`coverage_percentage = covered_columns / total_columns * 100`, falling back
to `0` (not an error, not division by zero) when `total_columns = 0`. -/
theorem C8_coverage_formula (discovered : List ValidationMonitor.TableInfo)
    (rules : List ValidationMonitor.RuleDef) (h : discovered ≠ []) :
    ∃ stats : ValidationMonitor.CoverageStats,
      ValidationMonitor.analyze_validation_coverage discovered rules = Except.ok stats ∧
      stats.total_columns = (discovered.map (fun t => t.column_count)).sum ∧
      stats.covered_columns =
        ((ValidationMonitor.declared_pairs rules).map
          ValidationMonitor.joined_key).toFinset.card ∧
      stats.coverage_percentage =
        (if stats.total_columns > 0 then
          (stats.covered_columns : Rat) / (stats.total_columns : Rat) * 100 else 0) ∧
      (stats.total_columns = 0 → stats.coverage_percentage = 0) := by
  have hne : discovered.isEmpty = false := by
    cases discovered with
    | nil => exact absurd rfl h
    | cons d ds => rfl
  have hcc : (ValidationMonitor.coverage_entries rules).length
      = ((ValidationMonitor.declared_pairs rules).map
          ValidationMonitor.joined_key).toFinset.card := by
    rw [← ValidationMonitor.length_dedup_first_eq_card,
      ← ValidationMonitor.coverage_entries_keys, List.length_map]
  simp only [ValidationMonitor.analyze_validation_coverage, hne, Bool.false_eq_true,
    if_false]
  refine ⟨_, rfl, rfl, hcc, ?_, ?_⟩
  · by_cases htc : (discovered.map (fun t => t.column_count)).sum > 0 <;>
      simp [htc, hcc]
  · intro h0
    have h0' : (discovered.map (fun t => t.column_count)).sum = 0 := h0
    simp [h0']

/-- Witness for C8: a one-table snapshot with zero columns gives coverage
percentage `0`, and a one-table two-column snapshot with one declared pair
gives `50`. -/
theorem C8_witness :
    (∃ stats : ValidationMonitor.CoverageStats,
      ValidationMonitor.analyze_validation_coverage
          [{ schema := "demand", table := "demand.t1", column_count := 0, columns := [],
             estimated_row_count := 0 }] [] = Except.ok stats ∧
      stats.total_columns =
        ([{ schema := "demand", table := "demand.t1", column_count := 0, columns := [],
            estimated_row_count := 0 }].map
          (fun t => ValidationMonitor.TableInfo.column_count t)).sum ∧
      stats.covered_columns =
        ((ValidationMonitor.declared_pairs []).map
          ValidationMonitor.joined_key).toFinset.card ∧
      stats.coverage_percentage =
        (if stats.total_columns > 0 then
          (stats.covered_columns : Rat) / (stats.total_columns : Rat) * 100 else 0) ∧
      (stats.total_columns = 0 → stats.coverage_percentage = 0)) ∧
    (∃ stats : ValidationMonitor.CoverageStats,
      ValidationMonitor.analyze_validation_coverage
          [{ schema := "demand", table := "demand.t1", column_count := 2,
             columns := ["c1", "c2"], estimated_row_count := 10 }]
          [{ name := "load_null_check", rule_class := "NullCheckRule",
             config := ValidationMonitor.RuleConfigPayload.items [("demand.t1", "c1")] }] =
        Except.ok stats ∧
      stats.covered_columns = 1 ∧ stats.total_columns = 2 ∧
      stats.coverage_percentage = 50) := by
  constructor
  · exact C8_coverage_formula
      [{ schema := "demand", table := "demand.t1", column_count := 0, columns := [],
         estimated_row_count := 0 }] [] (by simp)
  · obtain ⟨stats, hok, hcov⟩ := C8_coverage_formula
      [{ schema := "demand", table := "demand.t1", column_count := 2,
         columns := ["c1", "c2"], estimated_row_count := 10 }]
      [{ name := "load_null_check", rule_class := "NullCheckRule",
         config := ValidationMonitor.RuleConfigPayload.items [("demand.t1", "c1")] }]
      (by simp)
    have hsum : stats.total_columns = 2 := by
      rw [hcov.1]
      rfl
    have hcard : stats.covered_columns = 1 := by
      rw [hcov.2.1]
      decide
    refine ⟨stats, hok, hcard, hsum, ?_⟩
    rw [hcov.2.2.1, hsum, hcard]
    norm_num

end Egon
